import Mathlib

/-!
Shallow embedding of `monitor/ssh_handler.py` from the agentless-monitoring
repository, together with proofs settling the frozen claims about it.

Modelling conventions:
* Python `str` values are Lean `String`s (lists of unicode scalar chars).
  Character classes such as `\d` and `str.isdigit` are modelled over ASCII,
  which is the alphabet every claim exercises.
* Python `float` values are modelled as `Rat`; every numeric value appearing
  in the claims is exactly representable, so no rounding behaviour is lost.
* Exceptions are modelled with `Except`; the distinct Python exception
  classes (`SSHConnectionError`, `SSHCommandError`, `CSVParseError`, generic
  `Exception`) become constructors of `PyErr`.
* The live subprocess interactions (`subprocess.run`, the interactive
  bastion session) are abstracted as scripted outcomes supplied to the
  embedded functions; all control flow around them is taken from the source.
-/

/-! ## ANSI escape stripping (`ANSI_ESCAPE` regex and `remove_ansi_escape`) -/

/-- The ESC character `\x1B`. -/
def escChar : Char := Char.ofNat 0x1B

/-- Membership in the regex character class spanning `0x40`–`0x5A` and `0x5C`–`0x5F`: the final byte of a two-character escape sequence. -/
def isSingleEscFinal (c : Char) : Bool :=
  (0x40 ≤ c.toNat && c.toNat ≤ 0x5A) || (0x5C ≤ c.toNat && c.toNat ≤ 0x5F)

/-- Membership in the CSI parameter-byte class `0x30`–`0x3F`. -/
def isParamByte (c : Char) : Bool := 0x30 ≤ c.toNat && c.toNat ≤ 0x3F

/-- Membership in the CSI intermediate-byte class `0x20`–`0x2F`. -/
def isInterByte (c : Char) : Bool := 0x20 ≤ c.toNat && c.toNat ≤ 0x2F

/-- Membership in the CSI final-byte class `0x40`–`0x7E`. -/
def isFinalByte (c : Char) : Bool := 0x40 ≤ c.toNat && c.toNat ≤ 0x7E

/-- After ESC and an opening bracket, consume parameter bytes, then intermediate bytes, then one final byte, and return the remaining
characters, or `none` when the CSI tail does not match.  The three classes
are pairwise disjoint, so the greedy match of the regex engine coincides
with this deterministic scan. -/
def csiRemainder (l : List Char) : Option (List Char) :=
  match (l.dropWhile isParamByte).dropWhile isInterByte with
  | [] => none
  | c :: r => if isFinalByte c then some r else none

/-- If the `ANSI_ESCAPE` regex of the source matches a prefix of `l`,
return the characters after the match. -/
def ansiRemainder : List Char → Option (List Char)
  | c₀ :: c₁ :: rest =>
    if c₀ = escChar then
      if isSingleEscFinal c₁ then some rest
      else if c₁ = '[' then csiRemainder rest
      else none
    else none
  | _ => none

/-- Fueled scan implementing `re.sub` with empty replacement: at each position,
if the pattern matches there, drop the match and continue after it,
otherwise keep the character.  Called with `fuel = cs.length`, which always
suffices since every step consumes at least one character. -/
def removeAnsiAux : Nat → List Char → List Char
  | 0, cs => cs
  | _ + 1, [] => []
  | fuel + 1, c :: cs =>
    match ansiRemainder (c :: cs) with
    | some r => removeAnsiAux fuel r
    | none => c :: removeAnsiAux fuel cs

/-- The substitution `ANSI_ESCAPE.sub` with empty replacement, on a character list. -/
def removeAnsi (cs : List Char) : List Char := removeAnsiAux cs.length cs

/-- Embedding of `remove_ansi_escape(text)` from `ssh_handler.py`. -/
def remove_ansi_escape (s : String) : String := String.mk (removeAnsi s.data)

/-- Returns `true` iff the ANSI regex matches somewhere in `cs` — i.e. the text
contains an ANSI escape sequence. -/
def hasAnsi : List Char → Bool
  | [] => false
  | c :: cs => (ansiRemainder (c :: cs)).isSome || hasAnsi cs

/-! ## Python string primitives used by the source -/

/-- The whitespace characters stripped by `str.strip()` / split on by
`str.split()` (restricted to the ASCII ones, which cover all inputs the
claims exercise). -/
def isPySpace (c : Char) : Bool :=
  c = ' ' || c = '\t' || c = '\n' || c = '\x0d' || c = Char.ofNat 0x0B || c = Char.ofNat 0x0C

/-- Python `str.strip()` on a character list. -/
def pyStripList (cs : List Char) : List Char :=
  ((cs.dropWhile isPySpace).reverse.dropWhile isPySpace).reverse

/-- Python `str.strip()`. -/
def pyStrip (s : String) : String := String.mk (pyStripList s.data)

/-- Split at every character satisfying `p`, keeping empty pieces —
the behaviour of `str.split(sep)` for a one-character separator. -/
def splitOnPred (p : Char → Bool) : List Char → List (List Char)
  | [] => [[]]
  | c :: cs =>
    if p c then [] :: splitOnPred p cs
    else
      match splitOnPred p cs with
      | [] => [[c]]
      | l :: ls => (c :: l) :: ls

/-- Python `str.split` on a comma. -/
def splitComma (s : String) : List String :=
  (splitOnPred (· = ',') s.data).map String.mk

/-- Python `str.split()` with no argument: split on whitespace runs,
dropping empty pieces. -/
def pySplitWs (s : String) : List String :=
  ((splitOnPred isPySpace s.data).filter (· ≠ [])).map String.mk

/-- Python `str.splitlines()`, modelled for newline-separated text (the
subprocess streams are opened in text mode, which normalises line
endings). -/
def pySplitlinesList : List Char → List (List Char)
  | [] => []
  | c :: cs =>
    if c = '\n' then [] :: pySplitlinesList cs
    else
      match pySplitlinesList cs with
      | [] => [[c]]
      | l :: ls => (c :: l) :: ls

/-- Python `str.splitlines()`. -/
def pySplitlines (s : String) : List String :=
  (pySplitlinesList s.data).map String.mk

/-- ASCII decimal digit test (`str.isdigit` restricted to ASCII). -/
def isAsciiDigit (c : Char) : Bool := '0' ≤ c && c ≤ '9'

/-- `str.isdigit()`: non-empty and all digits. -/
def pyIsDigit (cs : List Char) : Bool := !cs.isEmpty && cs.all isAsciiDigit

/-- Python `s.replace` with count 1 for a dot: remove the first dot, if any. -/
def removeFirstDot : List Char → List Char
  | [] => []
  | c :: cs => if c = '.' then cs else c :: removeFirstDot cs

/-- Value of a digit string (most significant first). -/
def digitsVal (cs : List Char) : Nat :=
  cs.foldl (fun n c => 10 * n + (c.toNat - 48)) 0

/-- Python `float(s)` for the strings accepted by the guard in
`_extract_numeric_value` (digits with at most one dot), as an exact
rational. -/
def decimalToRat (cs : List Char) : Rat :=
  let intPart := cs.takeWhile (· ≠ '.')
  let fracPart :=
    match cs.dropWhile (· ≠ '.') with
    | [] => []
    | _ :: r => r
  (digitsVal intPart : Rat) + (digitsVal fracPart : Rat) / (10 : Rat) ^ fracPart.length

/-! ## Data model: records, errors, host configuration -/

/-- The record returned by `parse_usage_data` on success.  `upload` and
`download` are the deltas (Python `None` is `Option.none`). -/
structure UsageRecord where
  last_update : String
  upload : Option Rat
  download : Option Rat
  disk : String
  cpu : String
  ram : String
deriving DecidableEq, Repr

/-- Model of `CSVParseError`, carried structurally: `insufficient` keeps the two
counts and the raw input that the source interpolates into its message;
`fieldError` is the `IndexError`/`ValueError` re-raise path of the
`try` block. -/
inductive ParseErr where
  | insufficient (validCount totalCount : Nat) (lines : List String)
  | fieldError
deriving DecidableEq, Repr

/-- Rendering of a `CSVParseError` to `str(e)`, following the f-strings of
the source (the interpolated Python list is abstracted as `toString`). -/
def renderParseErr : ParseErr → String
  | .insufficient v t lines =>
    "Insufficient valid CSV data. Found " ++ toString v ++ " valid lines out of "
      ++ toString t ++ " total lines: " ++ toString lines
  | .fieldError => "Error parsing CSV data"

/-- The exception classes that can cross function boundaries in
`ssh_handler.py`. -/
inductive PyErr where
  | connErr (msg : String)
  | cmdErr (msg : String)
  | parseErr (e : ParseErr)
  | otherErr (msg : String)
deriving DecidableEq, Repr

/-- Python `str(e)` for a `PyErr`. -/
def pyStrOfErr : PyErr → String
  | .connErr m => m
  | .cmdErr m => m
  | .parseErr e => renderParseErr e
  | .otherErr m => m

/-- The host fields of a server dictionary (everything except the nested
target key `"then"`). -/
structure HostConfig where
  hostname : String
  port : Option Nat
  username : String
  key_filepath : Option String
  password : Option String
deriving DecidableEq, Repr

/-- A server descriptor: host fields plus the optional `"then"` key holding
the final host behind the bastion. -/
structure ServerConfig extends HostConfig where
  thenCfg : Option HostConfig
deriving DecidableEq, Repr

/-- The value returned by `get_server_usage`: a usage record, or the
single-field dictionary `{"error": msg}`. -/
inductive UsageResult where
  | record (r : UsageRecord)
  | failure (msg : String)
deriving DecidableEq, Repr

/-! ## `parse_usage_data` and `_extract_numeric_value` -/

/-- Comma-split-and-strip of one line, as in the source list comprehension. -/
def splitStrip (line : String) : List String :=
  (splitComma line).map pyStrip

/-- Embedding of `_extract_numeric_value(s)`: split on whitespace; accept only when
there are at least two tokens and the first token, with its first dot
removed, is all digits; then convert the first token with `float`. -/
def _extract_numeric_value (s : String) : Option Rat :=
  match pySplitWs s with
  | p₀ :: _ :: _ =>
    if pyIsDigit (removeFirstDot p₀.data) then some (decimalToRat p₀.data) else none
  | _ => none

/-- Python conditional `x - y if x is not None and y is not None else None`. -/
def optDiff : Option Rat → Option Rat → Option Rat
  | some a, some b => some (a - b)
  | _, _ => none

/-- The filter step of `parse_usage_data`: lines whose comma-split,
stripped field list has at least 6 entries. -/
def valid_lines (lines : List String) : List String :=
  lines.filter fun l => 6 ≤ (splitStrip l).length

/-- Embedding of `parse_usage_data(lines)`.  Negative indexing `valid_lines[-1]` /
`[-2]` is realised through `List.reverse`; the field accesses of the `try`
block are modelled with `getElem?`, any failure landing in the
`except (IndexError, ValueError)` re-raise (`ParseErr.fieldError`). -/
def parse_usage_data (lines : List String) : Except ParseErr UsageRecord :=
  let valid := valid_lines lines
  if valid.length < 2 then
    .error (.insufficient valid.length lines.length lines)
  else
    match (valid.reverse)[0]?, (valid.reverse)[1]? with
    | some lastRaw, some prevRaw =>
      let last_line := splitStrip lastRaw
      let prev_line := splitStrip prevRaw
      match last_line[0]?, last_line[1]?, last_line[2]?, last_line[3]?,
        last_line[4]?, last_line[5]?, prev_line[1]?, prev_line[2]? with
      | some f0, some f1, some f2, some f3, some f4, some f5, some p1, some p2 =>
        let upload_diff := optDiff (_extract_numeric_value f1) (_extract_numeric_value p1)
        let download_diff := optDiff (_extract_numeric_value f2) (_extract_numeric_value p2)
        .ok { last_update := f0, upload := upload_diff, download := download_diff,
              disk := f3, cpu := f4, ram := f5 }
      | _, _, _, _, _, _, _, _ => .error .fieldError
    | _, _ => .error .fieldError

/-! ## `run_ssh_command_direct` -/

/-- Outcome of the `subprocess.run` call: normal completion with exit
status and captured streams, expiry of the `timeout=` argument
(`subprocess.TimeoutExpired`), or some other exception raised by the
runtime. -/
inductive RunOutcome where
  | completed (returncode : Int) (stdout stderr : String)
  | timedOut
  | raised (msg : String)
deriving DecidableEq, Repr

/-- Embedding of `run_ssh_command_direct(final_config)`, parameterised by the behaviour
of `subprocess.run` as a function of the `timeout=` argument it is given
(the source passes `timeout=15`).

Control flow from the source: inside the `try`, a non-zero exit status or
empty (stripped) output raises `SSHCommandError`; `subprocess.TimeoutExpired`
is converted to `SSHConnectionError`; the trailing `except Exception`
catches every other `Exception` — including the `SSHCommandError` objects
raised two lines above it — and re-raises
`SSHConnectionError("Failed to execute SSH command: " + str(e))`. -/
def run_ssh_command_direct (runner : Nat → RunOutcome) (final_config : ServerConfig) :
    Except PyErr (List String) :=
  match runner 15 with
  | .timedOut =>
    .error (.connErr ("SSH connection to " ++ final_config.hostname ++ " timed out"))
  | .raised msg =>
    .error (.connErr ("Failed to execute SSH command: " ++ msg))
  | .completed rc out err =>
    let body : Except PyErr (List String) :=
      if rc ≠ 0 then
        .error (.cmdErr ("Command failed with status " ++ toString rc ++ ": "
          ++ remove_ansi_escape (pyStrip err)))
      else
        let output := remove_ansi_escape (pyStrip out)
        if output = "" then .error (.cmdErr "No output received from remote command")
        else .ok (pySplitlines output)
    match body with
    | .error e => .error (.connErr ("Failed to execute SSH command: " ++ pyStrOfErr e))
    | .ok lines => .ok lines

/-! ## `run_ssh_command_nested` -/

/-- Prefix test implementing `re.match` with the timestamp pattern: a prefix of four digits, dash,
two digits, dash, two digits, space, two digits, colon, two digits, colon,
two digits, comma. -/
def startsWithTimestamp (s : String) : Bool :=
  match s.data with
  | y₁ :: y₂ :: y₃ :: y₄ :: d₁ :: m₁ :: m₂ :: d₂ :: a₁ :: a₂ :: sp :: h₁ :: h₂ :: c₁ ::
      mi₁ :: mi₂ :: c₂ :: s₁ :: s₂ :: comma :: _ =>
    isAsciiDigit y₁ && isAsciiDigit y₂ && isAsciiDigit y₃ && isAsciiDigit y₄ &&
    d₁ = '-' && isAsciiDigit m₁ && isAsciiDigit m₂ && d₂ = '-' &&
    isAsciiDigit a₁ && isAsciiDigit a₂ && sp = ' ' &&
    isAsciiDigit h₁ && isAsciiDigit h₂ && c₁ = ':' &&
    isAsciiDigit mi₁ && isAsciiDigit mi₂ && c₂ = ':' &&
    isAsciiDigit s₁ && isAsciiDigit s₂ && comma = ','
  | _ => false

/-- Python `lst[-2:]`: the last two elements (or fewer when shorter). -/
def lastTwo (l : List String) : List String := l.drop (l.length - 2)

/-- The success-branch post-processing of `run_ssh_command_nested`
(source lines 192–198): strip outer whitespace, split into lines, keep the
lines whose RAW text starts with a timestamp, ANSI-strip each kept line,
return the last two, or raise `SSHCommandError` when fewer than two
survive. -/
def processCapturedOutput (combined_output : String) : Except PyErr (List String) :=
  let output_lines := pySplitlines (pyStrip combined_output)
  let csv_lines := (output_lines.filter startsWithTimestamp).map remove_ansi_escape
  if 2 ≤ csv_lines.length then .ok (lastTwo csv_lines)
  else .error (.cmdErr ("Expected at least two valid CSV lines, found: " ++ toString csv_lines))

/-- Modelled from the spec wording of the claim (step 6 of the state
machine): strip ANSI from the whole captured text FIRST, then filter to
lines with a leading timestamp and return the last two.  Used only to
compare the claimed pipeline against `processCapturedOutput`. -/
def processCapturedOutputSpec (combined_output : String) : Except PyErr (List String) :=
  let output_lines := pySplitlines (pyStrip (remove_ansi_escape combined_output))
  let csv_lines := output_lines.filter startsWithTimestamp
  if 2 ≤ csv_lines.length then .ok (lastTwo csv_lines)
  else .error (.cmdErr ("Expected at least two valid CSV lines, found: " ++ toString csv_lines))

/-- One scripted run of the interactive transport underneath
`run_ssh_command_nested`: the results of the three
`_wait_for_prompt_or_clear_screen` calls, of the `_expect_output` call,
whether `poll()` still reports the process alive at the `finally` block,
and whether `bastion_process.wait(timeout=5)` expires there.  `spawnOk`
covers `subprocess.Popen` itself raising.  (`_send_command` failures are
not scripted: the claims need only the teardown-wait failure mode.) -/
structure NestedScript where
  spawnOk : Bool
  wait1 : Bool × String
  wait2 : Bool × String
  wait3 : Bool × String
  expectRes : Bool × String
  aliveAtClose : Bool
  closeWaitTimesOut : Bool
deriving DecidableEq, Repr

/-- Message `str(e)` of the `subprocess.TimeoutExpired` raised when
`bastion_process.wait(timeout=5)` expires in the `finally` block
(runtime-generated text, abstracted as a constant). -/
def timeoutExpiredMsg : String := "Command timed out after 5 seconds"

/-- The `try`/`except` body of `run_ssh_command_nested` (everything before
the `finally`), over a scripted transport.  Each failed wait raises
`SSHConnectionError` with the ANSI-stripped capture in the message; a
failed `_expect_output` raises `SSHCommandError`; a successful one hands
the capture to the post-processing step. -/
def nestedBody (s : NestedScript) : Except PyErr (List String) :=
  if !s.spawnOk then
    .error (.connErr "Error during nested SSH: spawn failed")
  else if !s.wait1.1 then
    .error (.connErr ("Timeout waiting for bastion response. Output so far:\n"
      ++ remove_ansi_escape s.wait1.2))
  else if !s.wait2.1 then
    .error (.connErr ("Timeout waiting for target connection. Output so far:\n"
      ++ remove_ansi_escape s.wait2.2))
  else if !s.wait3.1 then
    .error (.connErr ("Timeout waiting for prompt on the target server. Output so far:\n"
      ++ remove_ansi_escape s.wait3.2))
  else if !s.expectRes.1 then
    .error (.cmdErr ("Timeout waiting for target CSV output. Output so far:\n"
      ++ remove_ansi_escape s.expectRes.2))
  else
    processCapturedOutput s.expectRes.2

instance {ε α : Type} [DecidableEq ε] [DecidableEq α] : DecidableEq (Except ε α)
  | .error a, .error b =>
    if h : a = b then .isTrue (by rw [h]) else .isFalse (by intro he; cases he; exact h rfl)
  | .error _, .ok _ => .isFalse (by intro he; cases he)
  | .ok _, .error _ => .isFalse (by intro he; cases he)
  | .ok a, .ok b =>
    if h : a = b then .isTrue (by rw [h]) else .isFalse (by intro he; cases he; exact h rfl)

/-- Observable outcome of one call to `run_ssh_command_nested`: the value
returned or exception propagated, plus whether the `finally` block ran and
whether it called `terminate()`. -/
structure NestedResult where
  result : Except PyErr (List String)
  closingRan : Bool
  terminateCalled : Bool
deriving DecidableEq, Repr

/-- Embedding of `run_ssh_command_nested(final_config, proxy_config)` over a scripted
transport.  The `finally` block always runs; when the process exists and
`poll()` is `None` it sends two `exit` lines, calls `terminate()`, then
`wait(timeout=5)` — and that `wait` has no surrounding `try`, so its
`TimeoutExpired` propagates, replacing the body's result (Python `finally`
semantics). -/
def run_ssh_command_nested (s : NestedScript) (_final _proxy : HostConfig) : NestedResult :=
  let body := nestedBody s
  if s.spawnOk && s.aliveAtClose then
    if s.closeWaitTimesOut then
      { result := .error (.otherErr timeoutExpiredMsg), closingRan := true,
        terminateCalled := true }
    else
      { result := body, closingRan := true, terminateCalled := true }
  else
    { result := body, closingRan := true, terminateCalled := false }

/-! ## `get_server_usage` -/

/-- The `except` ladder of `get_server_usage`: render any escaped exception
as the single-field error dictionary. -/
def renderResult (fetched : Except PyErr (List String)) : UsageResult :=
  match fetched.bind (fun lines => (parse_usage_data lines).mapError PyErr.parseErr) with
  | .ok r => .record r
  | .error (.connErr m) => .failure ("Connection failed: " ++ m)
  | .error (.cmdErr m) => .failure ("Command failed: " ++ m)
  | .error (.parseErr e) => .failure ("Data parsing failed: " ++ renderParseErr e)
  | .error (.otherErr m) => .failure ("Internal error: " ++ m)

/-- Embedding of `get_server_usage(server_config)`, parameterised by the two fetchers.
When the descriptor has the `"then"` key, the final config is its value
and the proxy config is the descriptor minus that key
(`{k: v for k, v in server_config.items() if k != "then"}`, i.e. the
`HostConfig` projection); otherwise the whole descriptor goes to the
direct fetcher. -/
def get_server_usage
    (fetchNested : HostConfig → HostConfig → Except PyErr (List String))
    (fetchDirect : ServerConfig → Except PyErr (List String))
    (server_config : ServerConfig) : UsageResult :=
  let fetched :=
    match server_config.thenCfg with
    | some final_config => fetchNested final_config server_config.toHostConfig
    | none => fetchDirect server_config
  renderResult fetched

/-! ## Helper lemmas -/

lemma removeAnsiAux_of_clean : ∀ (fuel : Nat) (cs : List Char),
    hasAnsi cs = false → cs.length ≤ fuel → removeAnsiAux fuel cs = cs
  | 0, _, _, _ => rfl
  | fuel + 1, [], _, _ => rfl
  | fuel + 1, c :: cs, h, hle => by
    have h' : (ansiRemainder (c :: cs)).isSome = false ∧ hasAnsi cs = false := by
      simpa [hasAnsi] using h
    have hnone : ansiRemainder (c :: cs) = none := by
      cases hr : ansiRemainder (c :: cs) with
      | none => rfl
      | some r => rw [hr] at h'; simp at h'
    simp only [removeAnsiAux, hnone]
    rw [removeAnsiAux_of_clean fuel cs h'.2 (by simpa using Nat.le_of_succ_le_succ hle)]

/-- A string with no ANSI match anywhere is left unchanged by
`remove_ansi_escape`. -/
lemma remove_ansi_escape_of_clean (s : String) (h : hasAnsi s.data = false) :
    remove_ansi_escape s = s := by
  show String.mk (removeAnsiAux s.data.length s.data) = s
  rw [removeAnsiAux_of_clean s.data.length s.data h (le_refl _)]

/-- When at least two lines survive the 6-field filter, `parse_usage_data`
succeeds, and the record is built from the last two surviving lines. -/
lemma parse_usage_data_ok (lines : List String) (lastRaw prevRaw : String)
    (rest : List String)
    (hrev : (valid_lines lines).reverse = lastRaw :: prevRaw :: rest) :
    parse_usage_data lines = .ok {
      last_update := (splitStrip lastRaw).getD 0 "",
      upload := optDiff (_extract_numeric_value ((splitStrip lastRaw).getD 1 ""))
        (_extract_numeric_value ((splitStrip prevRaw).getD 1 "")),
      download := optDiff (_extract_numeric_value ((splitStrip lastRaw).getD 2 ""))
        (_extract_numeric_value ((splitStrip prevRaw).getD 2 "")),
      disk := (splitStrip lastRaw).getD 3 "",
      cpu := (splitStrip lastRaw).getD 4 "",
      ram := (splitStrip lastRaw).getD 5 "" } := by
  have hlen : 2 ≤ (valid_lines lines).length := by
    rw [← List.length_reverse, hrev]; simp
  have hlast_mem : lastRaw ∈ valid_lines lines := by
    have : lastRaw ∈ (valid_lines lines).reverse := by rw [hrev]; exact List.mem_cons_self _ _
    simpa using this
  have hprev_mem : prevRaw ∈ valid_lines lines := by
    have : prevRaw ∈ (valid_lines lines).reverse := by
      rw [hrev]; exact List.mem_cons_of_mem _ (List.mem_cons_self _ _)
    simpa using this
  have h6l : 6 ≤ (splitStrip lastRaw).length := by
    simpa [valid_lines] using List.of_mem_filter hlast_mem
  have h6p : 6 ≤ (splitStrip prevRaw).length := by
    simpa [valid_lines] using List.of_mem_filter hprev_mem
  unfold parse_usage_data
  rw [if_neg (by omega)]
  rw [hrev]
  simp only [List.getElem?_cons_zero, List.getElem?_cons_succ]
  have g0 : (splitStrip lastRaw)[0]? = some ((splitStrip lastRaw).getD 0 "") := by
    rw [List.getElem?_eq_getElem (by omega), List.getD_eq_getElem _ _ (by omega)]
  have g1 : (splitStrip lastRaw)[1]? = some ((splitStrip lastRaw).getD 1 "") := by
    rw [List.getElem?_eq_getElem (by omega), List.getD_eq_getElem _ _ (by omega)]
  have g2 : (splitStrip lastRaw)[2]? = some ((splitStrip lastRaw).getD 2 "") := by
    rw [List.getElem?_eq_getElem (by omega), List.getD_eq_getElem _ _ (by omega)]
  have g3 : (splitStrip lastRaw)[3]? = some ((splitStrip lastRaw).getD 3 "") := by
    rw [List.getElem?_eq_getElem (by omega), List.getD_eq_getElem _ _ (by omega)]
  have g4 : (splitStrip lastRaw)[4]? = some ((splitStrip lastRaw).getD 4 "") := by
    rw [List.getElem?_eq_getElem (by omega), List.getD_eq_getElem _ _ (by omega)]
  have g5 : (splitStrip lastRaw)[5]? = some ((splitStrip lastRaw).getD 5 "") := by
    rw [List.getElem?_eq_getElem (by omega), List.getD_eq_getElem _ _ (by omega)]
  have p1 : (splitStrip prevRaw)[1]? = some ((splitStrip prevRaw).getD 1 "") := by
    rw [List.getElem?_eq_getElem (by omega), List.getD_eq_getElem _ _ (by omega)]
  have p2 : (splitStrip prevRaw)[2]? = some ((splitStrip prevRaw).getD 2 "") := by
    rw [List.getElem?_eq_getElem (by omega), List.getD_eq_getElem _ _ (by omega)]
  rw [g0, g1, g2, g3, g4, g5, p1, p2]
/-- A list of length at least two, reversed, starts with two elements. -/
lemma exists_rev_cons_cons {α : Type} (l : List α) (h : 2 ≤ l.length) :
    ∃ (a b : α) (t : List α), l.reverse = a :: b :: t := by
  match hrev : l.reverse with
  | [] =>
    have := congrArg List.length hrev
    rw [List.length_reverse] at this
    simp only [List.length_nil] at this
    omega
  | [a] =>
    have := congrArg List.length hrev
    rw [List.length_reverse] at this
    simp only [List.length_cons, List.length_nil] at this
    omega
  | a :: b :: t => exact ⟨a, b, t, rfl⟩

/-- The delta combination `optDiff` is `none` as soon as its first argument is. -/
lemma optDiff_none_left (y : Option Rat) : optDiff none y = none := by
  cases y <;> rfl

/-- Python `replace` of one dot is the identity on dot-free strings. -/
lemma removeFirstDot_of_no_dot : ∀ (cs : List Char), cs.all (· ≠ '.') = true →
    removeFirstDot cs = cs
  | [], _ => rfl
  | c :: cs, h => by
    have h' := List.all_eq_true.mp h
    have hc : ¬ c = '.' := by simpa using h' c (List.mem_cons_self _ _)
    rw [removeFirstDot, if_neg hc,
      removeFirstDot_of_no_dot cs
        (List.all_eq_true.mpr fun x hx => h' x (List.mem_cons_of_mem _ hx))]

/-- On a dot-free token, the modelled `float` is just the digit value. -/
lemma decimalToRat_of_no_dot (cs : List Char) (h : cs.all (· ≠ '.') = true) :
    decimalToRat cs = (digitsVal cs : Rat) := by
  unfold decimalToRat
  rw [List.takeWhile_eq_self_iff.mpr (List.all_eq_true.mp h),
    List.dropWhile_eq_nil_iff.mpr (List.all_eq_true.mp h)]
  show (digitsVal cs : Rat) + (digitsVal [] : Rat) / (10 : Rat) ^ (List.length []) = _
  norm_num [digitsVal]

/-- Evaluation of `_extract_numeric_value` on a string whose first
whitespace token is all digits and which has at least two tokens. -/
lemma extract_of_digit_token (s : String) (tok : List Char) (b : String)
    (bs : List String) (hsplit : pySplitWs s = String.mk tok :: b :: bs)
    (hdig : pyIsDigit tok = true) (hnodot : tok.all (· ≠ '.') = true) :
    _extract_numeric_value s = some (digitsVal tok : Rat) := by
  unfold _extract_numeric_value
  rw [hsplit]
  show (if pyIsDigit (removeFirstDot tok) then some (decimalToRat tok) else none) = _
  rw [removeFirstDot_of_no_dot tok hnodot, if_pos hdig, decimalToRat_of_no_dot tok hnodot]

lemma extract_val_15 : _extract_numeric_value "15 KB" = some 15 := by
  rw [extract_of_digit_token "15 KB" ['1', '5'] "KB" [] (by decide) (by decide) (by decide)]
  norm_num [show digitsVal ['1', '5'] = 15 from by decide]

lemma extract_val_10 : _extract_numeric_value "10 KB" = some 10 := by
  rw [extract_of_digit_token "10 KB" ['1', '0'] "KB" [] (by decide) (by decide) (by decide)]
  norm_num [show digitsVal ['1', '0'] = 10 from by decide]

lemma extract_val_8 : _extract_numeric_value "8 KB" = some 8 := by
  rw [extract_of_digit_token "8 KB" ['8'] "KB" [] (by decide) (by decide) (by decide)]
  norm_num [show digitsVal ['8'] = 8 from by decide]

lemma extract_val_5 : _extract_numeric_value "5 KB" = some 5 := by
  rw [extract_of_digit_token "5 KB" ['5'] "KB" [] (by decide) (by decide) (by decide)]
  norm_num [show digitsVal ['5'] = 5 from by decide]

/-- Case-split on the error ladder of `renderResult`: every outcome is a
record or one of the four message renderings. -/
lemma renderResult_shape (x : Except PyErr (List String)) :
    (∃ r, renderResult x = .record r) ∨
    (∃ d, renderResult x = .failure ("Connection failed: " ++ d) ∨
          renderResult x = .failure ("Command failed: " ++ d) ∨
          renderResult x = .failure ("Data parsing failed: " ++ d) ∨
          renderResult x = .failure ("Internal error: " ++ d)) := by
  rcases hy : x.bind (fun lines => (parse_usage_data lines).mapError PyErr.parseErr)
    with e | r
  · rcases e with m | m | pe | m
    · exact .inr ⟨m, .inl (by unfold renderResult; rw [hy])⟩
    · exact .inr ⟨m, .inr (.inl (by unfold renderResult; rw [hy]))⟩
    · exact .inr ⟨renderParseErr pe, .inr (.inr (.inl (by unfold renderResult; rw [hy])))⟩
    · exact .inr ⟨m, .inr (.inr (.inr (by unfold renderResult; rw [hy])))⟩
  · exact .inl ⟨r, by unfold renderResult; rw [hy]⟩

/-! ## Sample configurations and scripts used by closed theorems -/

/-- A bastion host configuration. -/
def hostA : HostConfig :=
  { hostname := "proxy.example", port := some 22, username := "alice",
    key_filepath := none, password := none }

/-- A final host configuration. -/
def hostB : HostConfig :=
  { hostname := "final.example", port := some 5687, username := "bob",
    key_filepath := none, password := none }

/-- A descriptor with the nested-target key. -/
def cfgNested : ServerConfig := { toHostConfig := hostA, thenCfg := some hostB }

/-- A descriptor without the nested-target key. -/
def cfgDirect : ServerConfig := { toHostConfig := hostA, thenCfg := none }

/-- A well-formed two-line CSV capture. -/
def goodCsvCapture : String :=
  "2024-01-01 00:00:00,10 KB,5 KB,50%,3%,40%\n2024-01-01 00:01:00,15 KB,8 KB,51%,4%,41%\n"

/-- A scripted nested session in which every step succeeds, the process is
still alive at the `finally` block, and the 5-second teardown wait then
expires. -/
def teardownScript : NestedScript :=
  { spawnOk := true, wait1 := (true, "$ "), wait2 := (true, "$ "), wait3 := (true, "$ "),
    expectRes := (true, goodCsvCapture), aliveAtClose := true, closeWaitTimesOut := true }

/-! ## Claim theorems -/

/-- C1: the `finally` teardown block runs exactly once on every exit path,
but a failure during teardown IS raised to the caller and DOES replace the
result: with every fetch step succeeding, the body returns the two CSV
lines, yet when `wait(timeout=5)` expires in the `finally` block the call
propagates `TimeoutExpired` instead of returning them.  This contradicts
the claim that teardown failures are never raised and never mask the
original result. -/
theorem nested_teardown_failure_replaces_result :
    nestedBody teardownScript = .ok ["2024-01-01 00:00:00,10 KB,5 KB,50%,3%,40%",
      "2024-01-01 00:01:00,15 KB,8 KB,51%,4%,41%"] ∧
    (run_ssh_command_nested teardownScript hostB hostA).result =
      .error (.otherErr timeoutExpiredMsg) ∧
    (∀ (s : NestedScript) (f p : HostConfig),
      (run_ssh_command_nested s f p).closingRan = true) := by
  refine ⟨by decide, by decide, ?_⟩
  intro s f p
  cases hA : s.spawnOk && s.aliveAtClose
  · simp [run_ssh_command_nested, hA]
  · cases hB : s.closeWaitTimesOut
    · simp [run_ssh_command_nested, hA, hB]
    · simp [run_ssh_command_nested, hA, hB]

/-- C2 (counterexample): `strip_ansi` is not idempotent — on the input
ESC ESC at at, the first pass removes the inner two-character escape and
thereby splices the remaining ESC and at-sign into a new escape sequence,
which a second pass removes. -/
theorem strip_ansi_not_idempotent :
    remove_ansi_escape (remove_ansi_escape "\x1b\x1b@@") ≠
      remove_ansi_escape "\x1b\x1b@@" := by
  decide

/-- C2 (amended): `strip_ansi` never alters text containing no ANSI escape
sequence, and it is a fixed point on any input whose once-stripped form
contains no escape sequence — full idempotence fails
(`strip_ansi_not_idempotent`). -/
theorem strip_ansi_fixed_point_cases (s : String) :
    (hasAnsi s.data = false → remove_ansi_escape s = s) ∧
    (hasAnsi (remove_ansi_escape s).data = false →
      remove_ansi_escape (remove_ansi_escape s) = remove_ansi_escape s) :=
  ⟨remove_ansi_escape_of_clean s, remove_ansi_escape_of_clean (remove_ansi_escape s)⟩

theorem strip_ansi_fixed_point_cases_witness :
    remove_ansi_escape "usage" = "usage" ∧
    remove_ansi_escape (remove_ansi_escape "usage") = remove_ansi_escape "usage" :=
  ⟨(strip_ansi_fixed_point_cases "usage").1 (by decide),
   (strip_ansi_fixed_point_cases "usage").2 (by decide)⟩

/-- C3 (counterexample): an unanticipated internal error — here the
teardown `TimeoutExpired` escaping `run_ssh_command_nested` — is rendered
as `Internal error: <detail>`, which is not of the claimed uniform shape
`<Category> failed: <detail>`. -/
theorem get_server_usage_internal_error_shape :
    get_server_usage (fun fc pc => (run_ssh_command_nested teardownScript fc pc).result)
      (fun _ => .error (.otherErr "x")) cfgNested =
      .failure "Internal error: Command timed out after 5 seconds" ∧
    ¬ ∃ cat detail : String,
      "Internal error: Command timed out after 5 seconds" = cat ++ " failed: " ++ detail := by
  constructor
  · decide
  · rintro ⟨c, d, h⟩
    have hd := congrArg String.data h
    rw [String.data_append, String.data_append] at hd
    have hinf : (" failed: ").data <:+:
        ("Internal error: Command timed out after 5 seconds").data := by
      rw [hd]
      exact List.infix_append _ _ _
    exact absurd hinf (by decide)

/-- C3 (amended): every outcome of `get_server_usage` is a usage record or
a single-field failure whose message is one of `Connection failed: <d>`,
`Command failed: <d>`, `Data parsing failed: <d>`, or — for unanticipated
internal errors — `Internal error: <d>`; no exception escapes the modelled
boundary. -/
theorem get_server_usage_error_shape
    (fn : HostConfig → HostConfig → Except PyErr (List String))
    (fd : ServerConfig → Except PyErr (List String)) (cfg : ServerConfig) :
    (∃ r, get_server_usage fn fd cfg = .record r) ∨
    (∃ d, get_server_usage fn fd cfg = .failure ("Connection failed: " ++ d) ∨
          get_server_usage fn fd cfg = .failure ("Command failed: " ++ d) ∨
          get_server_usage fn fd cfg = .failure ("Data parsing failed: " ++ d) ∨
          get_server_usage fn fd cfg = .failure ("Internal error: " ++ d)) := by
  unfold get_server_usage
  exact renderResult_shape _

/-- C4: `parse_usage_data` on the two given valid lines yields the record
with the last timestamp, upload delta 5, download delta 3, and the disk,
cpu and ram fields of the last line. -/
theorem parse_usage_data_two_lines :
    parse_usage_data ["2024-01-01 00:00:00,10 KB,5 KB,50%,3%,40%",
      "2024-01-01 00:01:00,15 KB,8 KB,51%,4%,41%"] =
    .ok { last_update := "2024-01-01 00:01:00", upload := some 5, download := some 3,
          disk := "51%", cpu := "4%", ram := "41%" } := by
  rw [parse_usage_data_ok _ "2024-01-01 00:01:00,15 KB,8 KB,51%,4%,41%"
    "2024-01-01 00:00:00,10 KB,5 KB,50%,3%,40%" [] (by decide)]
  rw [show (splitStrip "2024-01-01 00:01:00,15 KB,8 KB,51%,4%,41%").getD 1 "" = "15 KB"
      from by decide,
    show (splitStrip "2024-01-01 00:00:00,10 KB,5 KB,50%,3%,40%").getD 1 "" = "10 KB"
      from by decide,
    show (splitStrip "2024-01-01 00:01:00,15 KB,8 KB,51%,4%,41%").getD 2 "" = "8 KB"
      from by decide,
    show (splitStrip "2024-01-01 00:00:00,10 KB,5 KB,50%,3%,40%").getD 2 "" = "5 KB"
      from by decide,
    extract_val_15, extract_val_10, extract_val_8, extract_val_5]
  simp only [optDiff, Except.ok.injEq, UsageRecord.mk.injEq]
  refine ⟨by decide, by norm_num, by norm_num, by decide, by decide, by decide⟩

/-- C5: whenever at least two lines survive the six-field filter,
`parse_usage_data` succeeds (it never raises on malformed numeric fields):
the deltas are the optional differences of the extracted values — `none`
exactly when a side is malformed — and the timestamp, disk, cpu and ram
fields of the last surviving line are still produced. -/
theorem parse_usage_data_degrades_to_null (lines : List String)
    (h : 2 ≤ (valid_lines lines).length) :
    ∃ r, parse_usage_data lines = .ok r ∧
      r.upload = optDiff
        (_extract_numeric_value
          ((splitStrip ((valid_lines lines).reverse.getD 0 "")).getD 1 ""))
        (_extract_numeric_value
          ((splitStrip ((valid_lines lines).reverse.getD 1 "")).getD 1 "")) ∧
      r.download = optDiff
        (_extract_numeric_value
          ((splitStrip ((valid_lines lines).reverse.getD 0 "")).getD 2 ""))
        (_extract_numeric_value
          ((splitStrip ((valid_lines lines).reverse.getD 1 "")).getD 2 "")) ∧
      r.last_update = (splitStrip ((valid_lines lines).reverse.getD 0 "")).getD 0 "" ∧
      r.disk = (splitStrip ((valid_lines lines).reverse.getD 0 "")).getD 3 "" ∧
      r.cpu = (splitStrip ((valid_lines lines).reverse.getD 0 "")).getD 4 "" ∧
      r.ram = (splitStrip ((valid_lines lines).reverse.getD 0 "")).getD 5 "" := by
  obtain ⟨a, b, t, hrev⟩ := exists_rev_cons_cons (valid_lines lines) h
  refine ⟨_, parse_usage_data_ok lines a b t hrev, ?_⟩
  rw [hrev]
  simp

theorem parse_usage_data_degrades_to_null_witness :
    ∃ r, parse_usage_data ["2024-01-01 00:00:00,N/A KB,5 KB,50%,3%,40%",
      "2024-01-01 00:01:00,N/A KB,8 KB,51%,4%,41%"] = .ok r ∧
      r.upload = none ∧ r.download = some 3 := by
  obtain ⟨r, hok, hup, hdn, _⟩ := parse_usage_data_degrades_to_null
    ["2024-01-01 00:00:00,N/A KB,5 KB,50%,3%,40%",
      "2024-01-01 00:01:00,N/A KB,8 KB,51%,4%,41%"] (by decide)
  refine ⟨r, hok, ?_, ?_⟩
  · rw [hup,
      show (splitStrip ((valid_lines ["2024-01-01 00:00:00,N/A KB,5 KB,50%,3%,40%",
        "2024-01-01 00:01:00,N/A KB,8 KB,51%,4%,41%"]).reverse.getD 0 "")).getD 1 ""
        = "N/A KB" from by decide,
      show _extract_numeric_value "N/A KB" = none from by decide]
    exact optDiff_none_left _
  · rw [hdn,
      show (splitStrip ((valid_lines ["2024-01-01 00:00:00,N/A KB,5 KB,50%,3%,40%",
        "2024-01-01 00:01:00,N/A KB,8 KB,51%,4%,41%"]).reverse.getD 0 "")).getD 2 ""
        = "8 KB" from by decide,
      show (splitStrip ((valid_lines ["2024-01-01 00:00:00,N/A KB,5 KB,50%,3%,40%",
        "2024-01-01 00:01:00,N/A KB,8 KB,51%,4%,41%"]).reverse.getD 1 "")).getD 2 ""
        = "5 KB" from by decide,
      extract_val_8, extract_val_5]
    simp only [optDiff, Option.some.injEq]
    norm_num

/-- C6: `parse_usage_data` fails if and only if fewer than two lines
survive the six-field filter, and the error then carries exactly the
surviving-line count and the total input-line count, both of which appear
verbatim in the rendered message. -/
theorem parse_usage_data_error_iff_insufficient (lines : List String) :
    ((∃ e, parse_usage_data lines = .error e) ↔ (valid_lines lines).length < 2) ∧
    (∀ e, parse_usage_data lines = .error e →
      e = .insufficient (valid_lines lines).length lines.length lines ∧
      (toString (valid_lines lines).length).data <:+: (renderParseErr e).data ∧
      (toString lines.length).data <:+: (renderParseErr e).data) := by
  by_cases h2 : (valid_lines lines).length < 2
  · have herr : parse_usage_data lines =
        .error (.insufficient (valid_lines lines).length lines.length lines) := by
      unfold parse_usage_data
      rw [if_pos h2]
    refine ⟨⟨fun _ => h2, fun _ => ⟨_, herr⟩⟩, ?_⟩
    intro e he
    rw [herr] at he
    have he' : ParseErr.insufficient (valid_lines lines).length lines.length lines = e := by
      injection he
    subst he'
    refine ⟨rfl, ?_, ?_⟩
    · exact ⟨"Insufficient valid CSV data. Found ".data,
        (" valid lines out of " ++ toString lines.length ++ " total lines: "
          ++ toString lines).data,
        by simp [renderParseErr, String.data_append, List.append_assoc]⟩
    · exact ⟨("Insufficient valid CSV data. Found " ++ toString (valid_lines lines).length
          ++ " valid lines out of ").data,
        (" total lines: " ++ toString lines).data,
        by simp [renderParseErr, String.data_append, List.append_assoc]⟩
  · obtain ⟨a, b, t, hrev⟩ := exists_rev_cons_cons (valid_lines lines) (by omega)
    have hok := parse_usage_data_ok lines a b t hrev
    refine ⟨⟨?_, fun hlt => absurd hlt h2⟩, ?_⟩
    · rintro ⟨e, he⟩
      rw [hok] at he
      cases he
    · intro e he
      rw [hok] at he
      cases he

theorem parse_usage_data_error_iff_insufficient_witness :
    ∃ e, parse_usage_data ["x"] = .error e ∧ e = .insufficient 0 1 ["x"] := by
  obtain ⟨e, he⟩ := (parse_usage_data_error_iff_insufficient ["x"]).1.mpr (by decide)
  obtain ⟨h1, _, _⟩ := (parse_usage_data_error_iff_insufficient ["x"]).2 e he
  exact ⟨e, he, h1.trans (by decide)⟩

/-- C7 (counterexample): the post-match processing is NOT strip-ANSI first
and filter second — on a capture whose first CSV line carries a leading
clear-screen code, the code (which filters the raw lines before
stripping) drops that line and fails, while the claimed strip-then-filter
pipeline keeps both lines and succeeds. -/
theorem nested_postprocess_order :
    processCapturedOutput
        "\x1b[H2024-01-01 00:00:00,1 KB,2 KB,50%,3%,40%\n2024-01-01 00:01:00,1 KB,2 KB,50%,3%,40%\n" ≠
      processCapturedOutputSpec
        "\x1b[H2024-01-01 00:00:00,1 KB,2 KB,50%,3%,40%\n2024-01-01 00:01:00,1 KB,2 KB,50%,3%,40%\n" := by
  decide

/-- C7 (amended): after the data-ready predicate matches, the captured
text is filtered to lines whose RAW text begins with a date-time
timestamp, each surviving line is then ANSI-stripped, and the last two are
returned; with fewer than two surviving lines the fetch fails with a
command-failure signal even though the character-level predicate
matched. -/
theorem nested_postprocess_filter_then_strip (t : String) :
    (2 ≤ (((pySplitlines (pyStrip t)).filter startsWithTimestamp).map
        remove_ansi_escape).length →
      processCapturedOutput t =
        .ok (lastTwo (((pySplitlines (pyStrip t)).filter startsWithTimestamp).map
          remove_ansi_escape))) ∧
    ((((pySplitlines (pyStrip t)).filter startsWithTimestamp).map
        remove_ansi_escape).length < 2 →
      ∃ m, processCapturedOutput t = .error (.cmdErr m)) := by
  constructor
  · intro h
    unfold processCapturedOutput
    rw [if_pos h]
  · intro h
    unfold processCapturedOutput
    rw [if_neg (by omega)]
    exact ⟨_, rfl⟩

theorem nested_postprocess_filter_then_strip_witness :
    processCapturedOutput goodCsvCapture =
      .ok ["2024-01-01 00:00:00,10 KB,5 KB,50%,3%,40%",
        "2024-01-01 00:01:00,15 KB,8 KB,51%,4%,41%"] := by
  have h := (nested_postprocess_filter_then_strip goodCsvCapture).1 (by decide)
  rw [h]
  decide

/-- C8: `get_server_usage` routes a descriptor carrying the nested-target
key to the nested driver, called with that key's value as the final config
and the descriptor minus that key as the proxy config, and a descriptor
without the key to the direct fetcher with its own fields. -/
theorem get_server_usage_routing
    (fn : HostConfig → HostConfig → Except PyErr (List String))
    (fd : ServerConfig → Except PyErr (List String)) (cfg : ServerConfig) :
    (∀ fc, cfg.thenCfg = some fc →
      get_server_usage fn fd cfg = renderResult (fn fc cfg.toHostConfig)) ∧
    (cfg.thenCfg = none → get_server_usage fn fd cfg = renderResult (fd cfg)) := by
  constructor
  · intro fc h
    unfold get_server_usage
    rw [h]
  · intro h
    unfold get_server_usage
    rw [h]

theorem get_server_usage_routing_witness :
    get_server_usage (fun _ _ => .error (.connErr "n")) (fun _ => .error (.cmdErr "d"))
      cfgNested = .failure "Connection failed: n" ∧
    get_server_usage (fun _ _ => .error (.connErr "n")) (fun _ => .error (.cmdErr "d"))
      cfgDirect = .failure "Command failed: d" :=
  ⟨((get_server_usage_routing _ _ cfgNested).1 hostB rfl).trans (by decide),
   ((get_server_usage_routing _ _ cfgDirect).2 rfl).trans (by decide)⟩

/-- C9: in direct mode a non-zero exit status and an empty stripped output
do NOT surface as command failures: the `except Exception` clause of the
source catches the freshly raised `SSHCommandError` and re-raises it as
`SSHConnectionError` (`Failed to execute SSH command: ...`), so both
become connection failures; only the claimed timeout-to-connection-failure
mapping behaves as stated. -/
theorem direct_failures_become_connection_errors :
    run_ssh_command_direct (fun _ => .completed 1 "" "err") cfgDirect =
      .error (.connErr "Failed to execute SSH command: Command failed with status 1: err") ∧
    run_ssh_command_direct (fun _ => .completed 0 "" "") cfgDirect =
      .error (.connErr "Failed to execute SSH command: No output received from remote command") ∧
    run_ssh_command_direct (fun _ => .timedOut) cfgDirect =
      .error (.connErr "SSH connection to proxy.example timed out") :=
  ⟨by decide, by decide, by decide⟩

/-- C10: numeric extraction returns `none` whenever the whitespace-split
of the field has fewer than two tokens or the first token fails the
one-dot digit test (so an unlabelled or negative value counts as
unavailable), and in that case the corresponding delta of the parsed
record is `none`. -/
theorem extract_numeric_guard :
    (∀ s : String, ((pySplitWs s).length < 2 ∨
        pyIsDigit (removeFirstDot (((pySplitWs s).getD 0 "").data)) = false) →
      _extract_numeric_value s = none) ∧
    (∀ (lines : List String) (lastRaw prevRaw : String) (rest : List String),
      (valid_lines lines).reverse = lastRaw :: prevRaw :: rest →
      _extract_numeric_value ((splitStrip lastRaw).getD 1 "") = none →
      ∃ r, parse_usage_data lines = .ok r ∧ r.upload = none) := by
  constructor
  · intro s hcond
    unfold _extract_numeric_value
    cases hm : pySplitWs s with
    | nil => rfl
    | cons p ps =>
      cases ps with
      | nil => rfl
      | cons q qs =>
        rcases hcond with hlen | hdig
        · rw [hm] at hlen
          simp at hlen
          omega
        · rw [hm] at hdig
          simp [List.getD] at hdig
          show (if pyIsDigit (removeFirstDot p.data) then some (decimalToRat p.data)
            else none) = none
          simp [hdig]
  · intro lines lastRaw prevRaw rest hrev hnone
    refine ⟨_, parse_usage_data_ok lines lastRaw prevRaw rest hrev, ?_⟩
    show optDiff (_extract_numeric_value ((splitStrip lastRaw).getD 1 ""))
      (_extract_numeric_value ((splitStrip prevRaw).getD 1 "")) = none
    rw [hnone]
    exact optDiff_none_left _

theorem extract_numeric_guard_witness :
    _extract_numeric_value "42" = none ∧ _extract_numeric_value "-5 KB" = none ∧
    ∃ r, parse_usage_data ["2024-01-01 00:00:00,42,5 KB,50%,3%,40%",
      "2024-01-01 00:01:00,43,8 KB,51%,4%,41%"] = .ok r ∧ r.upload = none := by
  refine ⟨extract_numeric_guard.1 "42" (.inl (by decide)),
    extract_numeric_guard.1 "-5 KB" (.inr (by decide)),
    extract_numeric_guard.2 _ "2024-01-01 00:01:00,43,8 KB,51%,4%,41%"
      "2024-01-01 00:00:00,42,5 KB,50%,3%,40%" [] (by decide) (by decide)⟩
